import Mathlib

/-!
# Verification of the mts background-task subsystem

A shallow embedding of the durable background-task core of the `mts` server:

* `crates/mts-server/src/background_tasks.rs` — the `BackgroundTaskManager`
  registry, its `TaskHandle`s and the `TaskStatus` state machine;
* `crates/mts-server/src/routes/reply.rs` — the reply orchestrator: the
  spawned task that pulls agent events, emits protocol events to the caller
  channel and the broadcaster, and updates the registry.

Stateful Rust is modelled as explicit state passing: the registry's
`HashMap<String, Arc<TaskHandle>>` becomes an association list with unique
keys, atomics become plain record fields, the `tokio::broadcast` channel
becomes an event log plus a receiver count (a fresh receiver is a cursor at
the current end of the log), and the orchestrator's `tokio::select!` loop
becomes a step function driven by a schedule of wake-ups.  `tokio::select!`
without the `biased;` keyword polls its branches in random order, so the
choice of which simultaneously-ready branch runs is genuine nondeterminism;
the schedule makes that nondeterminism an explicit input.
-/

/-- Status enum `TaskStatus` from `background_tasks.rs` (`Running = 0`, `Completed = 1`,
`Error = 2`, `Cancelled = 3`). -/
inductive TaskStatus where
  | Running
  | Completed
  | Error
  | Cancelled
deriving Repr, DecidableEq

/-- The spec's terminal statuses: `Completed`, `Error`, `Cancelled`. -/
def TaskStatus.isTerminal : TaskStatus → Bool
  | .Running => false
  | _ => true

/-- Chat messages are opaque payloads here: no claim inspects their structure
(`mts::conversation::message::Message` lives outside the files under
verification). -/
abbrev Message := String

/-- A `Conversation` is a sequence of messages. -/
abbrev Conversation := List Message

/-- Token-usage snapshot (`TokenState` in `mts::conversation::message`;
populated field-by-field in `get_token_state`, zero-valued on lookup
failure). -/
structure TokenState where
  inputTokens : Int
  outputTokens : Int
  totalTokens : Int
  accumulatedInputTokens : Int
  accumulatedOutputTokens : Int
  accumulatedTotalTokens : Int
deriving Repr, DecidableEq

/-- The all-zero snapshot (`TokenState::default()`). -/
def TokenState.zero : TokenState := ⟨0, 0, 0, 0, 0, 0⟩

/-- Event union `MessageEvent` from `routes/reply.rs`: the protocol event union pushed to
the caller channel and the broadcaster.  Notification payloads are kept
opaque. -/
inductive MessageEvent where
  | message (message : Message) (tokenState : TokenState)
  | error (error : String)
  | finish (reason : String) (tokenState : TokenState)
  | modelChange (model : String) (mode : String)
  | notification (requestId : String) (payload : String)
  | updateConversation (conversation : Conversation)
  | ping
deriving Repr, DecidableEq

/-- The `tokio::sync::broadcast` channel held by a `TaskHandle`: the log of
values accepted by `send` and the current receiver count.  `send` with zero
receivers returns `Err` and the value is dropped; a fresh receiver starts at
the current end of the log. -/
structure Broadcaster where
  log : List MessageEvent
  receivers : Nat
deriving Repr, DecidableEq

/-- State of `broadcast::channel(100)` right after creation (capacity/lag is not
modelled; no claim depends on it). -/
def Broadcaster.new : Broadcaster := ⟨[], 0⟩

/-- Handle type `TaskHandle` from `background_tasks.rs`: cancellation token (`true` once
`cancel()` has been called — level-triggered), status, last-activity
timestamp in milliseconds, and the broadcast channel. -/
structure TaskHandle where
  cancelToken : Bool
  status : TaskStatus
  lastActivity : Int
  bc : Broadcaster
deriving Repr, DecidableEq

/-- Constructor `TaskHandle::new(cancel_token)`: status `Running`, activity = now, fresh
broadcaster.  `tokenFired` is the state of the caller-supplied token. -/
def TaskHandle.new (tokenFired : Bool) (now : Int) : TaskHandle :=
  { cancelToken := tokenFired
    status := .Running
    lastActivity := now
    bc := Broadcaster.new }

/-- The registry's `HashMap<String, Arc<TaskHandle>>`, as an association
list; all operations preserve key uniqueness. -/
abbrev Registry := List (String × TaskHandle)

/-- Models `HashMap::get`. -/
def lookupTask : Registry → String → Option TaskHandle
  | [], _ => none
  | (k, h) :: rest, sid => if k = sid then some h else lookupTask rest sid

/-- Models `HashMap::remove` (removes every binding of the key; equal to removing
the single binding when keys are unique). -/
def removeTask : Registry → String → Registry
  | [], _ => []
  | (k, h) :: rest, sid =>
      if k = sid then removeTask rest sid else (k, h) :: removeTask rest sid

/-- In-place mutation of the handle stored under a key (the Rust code
mutates the `Arc<TaskHandle>`'s atomics through a shared reference). -/
def updateTask : Registry → String → (TaskHandle → TaskHandle) → Registry
  | [], _, _ => []
  | (k, h) :: rest, sid, f =>
      if k = sid then (k, f h) :: updateTask rest sid f
      else (k, h) :: updateTask rest sid f

/-- The keys of the registry. -/
def registryKeys (ts : Registry) : List String := ts.map Prod.fst

namespace BackgroundTaskManager

/-- Result of `register_task`.  `oldHandle` is the superseded handle after
its token has been fired: the Rust `Arc` keeps it alive for its orchestrator
even though it has left the map, so the model exposes its post-cancel
state. -/
structure RegisterResult where
  reg : Registry
  broadcaster : Broadcaster
  oldHandle : Option TaskHandle
deriving Repr, DecidableEq

/-- Method `BackgroundTaskManager::register_task`: build a fresh handle, cancel and
remove any existing task for the session, insert the new one, return the
new broadcaster. -/
def register_task (ts : Registry) (sid : String) (tokenFired : Bool) (now : Int) :
    RegisterResult :=
  let handle := TaskHandle.new tokenFired now
  { reg := (sid, handle) :: removeTask ts sid
    broadcaster := handle.bc
    oldHandle := (lookupTask ts sid).map (fun h => { h with cancelToken := true }) }

/-- Method `BackgroundTaskManager::subscribe`: `None` when the session is unknown;
otherwise refresh activity and return a fresh receiver, i.e. a cursor at the
current end of the handle's broadcast log. -/
def subscribe (ts : Registry) (sid : String) (now : Int) : Registry × Option Nat :=
  match lookupTask ts sid with
  | some h =>
      (updateTask ts sid (fun h => { h with
          lastActivity := now
          bc := { h.bc with receivers := h.bc.receivers + 1 } }),
       some h.bc.log.length)
  | none => (ts, none)

/-- Method `BackgroundTaskManager::mark_completed`. -/
def mark_completed (ts : Registry) (sid : String) (now : Int) : Registry :=
  match lookupTask ts sid with
  | some _ => updateTask ts sid (fun h => { h with status := .Completed, lastActivity := now })
  | none => ts

/-- Method `BackgroundTaskManager::mark_error`. -/
def mark_error (ts : Registry) (sid : String) (now : Int) : Registry :=
  match lookupTask ts sid with
  | some _ => updateTask ts sid (fun h => { h with status := .Error, lastActivity := now })
  | none => ts

/-- Method `BackgroundTaskManager::cancel_task`: fire the token and set status
`Cancelled` when the session is known (returning `true`), else do nothing
and return `false`.  Note the source checks only presence, not the current
status. -/
def cancel_task (ts : Registry) (sid : String) : Registry × Bool :=
  match lookupTask ts sid with
  | some _ => (updateTask ts sid (fun h => { h with cancelToken := true, status := .Cancelled }), true)
  | none => (ts, false)

/-- Method `BackgroundTaskManager::update_activity`. -/
def update_activity (ts : Registry) (sid : String) (now : Int) : Registry :=
  match lookupTask ts sid with
  | some _ => updateTask ts sid (fun h => { h with lastActivity := now })
  | none => ts

/-- Method `BackgroundTaskManager::cleanup_task`: remove the entry only when the
task is not `Running` and its broadcaster has no receivers. -/
def cleanup_task (ts : Registry) (sid : String) : Registry :=
  match lookupTask ts sid with
  | some h =>
      if h.status ≠ TaskStatus.Running ∧ h.bc.receivers = 0 then removeTask ts sid else ts
  | none => ts

/-- Method `BackgroundTaskManager::is_running`. -/
def is_running (ts : Registry) (sid : String) : Bool :=
  match lookupTask ts sid with
  | some h => h.status = TaskStatus.Running
  | none => false

/-- Method `BackgroundTaskManager::running_sessions`. -/
def running_sessions (ts : Registry) : List String :=
  (ts.filter (fun p => p.2.status = TaskStatus.Running)).map Prod.fst

end BackgroundTaskManager

/-- Status projection of a registry entry. -/
def lookupStatus (ts : Registry) (sid : String) : Option TaskStatus :=
  (lookupTask ts sid).map TaskHandle.status

/-- Events a receiver positioned at `cursor` obtains from a broadcast log. -/
def receivedFrom (log : List MessageEvent) (cursor : Nat) : List MessageEvent :=
  log.drop cursor

/-! ## The reply orchestrator (`routes/reply.rs`)

The spawned task in `reply` is modelled as: a setup phase (agent lookup,
session lookup, empty-message guard, reply-stream start — each failure
emits one `Error`, calls `mark_error` and returns), then a `tokio::select!`
loop driven by a schedule of wake-ups, then a finish phase (`Finish` event
and `mark_completed`/`mark_error`). -/

/-- Producer items (`AgentEvent`) yielded by the agent's reply stream (consumed as an
opaque producer; payloads kept abstract). -/
inductive AgentEvent where
  | message (m : Message)
  | historyReplaced (c : Conversation)
  | modelChange (model : String) (mode : String)
  | mcpNotification (requestId : String) (payload : String)
deriving Repr, DecidableEq

deriving instance DecidableEq for Except

/-- State of one orchestrator execution.  `bc` is the orchestrator's clone
of the broadcast sender created at registration (shared, in Rust, with the
handle stored in the registry); `txLog` is what the original caller's
`mpsc` channel has accepted; `emitted` is every event passed to
`stream_event`, in order; `prod` is the rest of the agent producer;
`cancelFired` is the state of the task's cancellation token. -/
structure OrchState where
  reg : Registry
  bc : Broadcaster
  txConnected : Bool
  txLog : List MessageEvent
  emitted : List MessageEvent
  prod : List (Except String AgentEvent)
  allMessages : Conversation
  taskError : Bool
  cancelFired : Bool
deriving Repr, DecidableEq

/-- Function `stream_event` (`reply.rs:169`): serialize, `send` on the broadcaster
(dropped when it has no receivers), `send` on the caller channel (a failure
there is logged and ignored — the state carries on unchanged apart from the
caller log). -/
def stream_event (ev : MessageEvent) (st : OrchState) : OrchState :=
  { st with
    emitted := st.emitted ++ [ev]
    bc := if st.bc.receivers > 0 then { st.bc with log := st.bc.log ++ [ev] } else st.bc
    txLog := if st.txConnected then st.txLog ++ [ev] else st.txLog }

/-- Environment of one `reply` request: the request payload plus the results
the outside world will give this execution (agent lookup, session lookup,
reply-stream start, the producer's items, the token-state reader, the
clock, caller-channel liveness, and how many receivers are attached to the
broadcast channel while the task runs). -/
structure Env where
  sessionId : String
  reg0 : Registry
  agentErr : Option String
  sessionErr : Option String
  messages : Conversation
  replyErr : Option String
  producer : List (Except String AgentEvent)
  tok : TokenState
  now : Int
  txConnected : Bool
  receivers0 : Nat
deriving Repr, DecidableEq

/-- All four setup stages succeed. -/
def setupOk (e : Env) : Bool :=
  e.agentErr = none ∧ e.sessionErr = none ∧ e.messages ≠ [] ∧ e.replyErr = none

/-- State right after `register_task`, before the spawned body runs. -/
def initOrch (e : Env) : OrchState :=
  { reg := (BackgroundTaskManager.register_task e.reg0 e.sessionId false e.now).reg
    bc := { log := [], receivers := e.receivers0 }
    txConnected := e.txConnected
    txLog := []
    emitted := []
    prod := e.producer
    allMessages := e.messages
    taskError := false
    cancelFired := false }

/-- Emit one `Error` and `mark_error`, as every setup-failure arm does. -/
def setupFail (e : Env) (msg : String) (st : OrchState) : OrchState :=
  let st := stream_event (.error msg) st
  { st with reg := BackgroundTaskManager.mark_error st.reg e.sessionId e.now }

/-- The setup phase of the spawned body (`reply.rs:256-338`): agent lookup,
session lookup, `messages.last()` guard, reply-stream start.  `Except.error`
carries the terminated state of a failed setup; `Except.ok` the state at
loop entry. -/
def setup (e : Env) : Except OrchState OrchState :=
  let st0 := initOrch e
  match e.agentErr with
  | some er => .error (setupFail e ("Failed to get session agent: " ++ er) st0)
  | none =>
    match e.sessionErr with
    | some er => .error (setupFail e ("Failed to read session: " ++ er) st0)
    | none =>
      match e.messages.getLast? with
      | none => .error (setupFail e "Reply started with empty messages" st0)
      | some _ =>
        match e.replyErr with
        | some er => .error (setupFail e er st0)
        | none => .ok st0

/-- One wake-up of the `tokio::select!` loop: which branch the runtime ran.
`producerItem` is the bounded producer poll completing with the stream's
next item (or its end); `producerTimeout` is that poll timing out. -/
inductive Wake where
  | cancelSignal
  | heartbeat
  | producerItem
  | producerTimeout
deriving Repr, DecidableEq

/-- One iteration of the select loop (`reply.rs:342-405`).  Returns the new
state and whether the loop continues (`false` = `break`).  The cancellation
branch can only run once the token has fired (its future is pending
otherwise), and then breaks without emitting anything. -/
def loopStep (e : Env) (st : OrchState) (w : Wake) : OrchState × Bool :=
  match w with
  | .cancelSignal =>
      if st.cancelFired then (st, false) else (st, true)
  | .heartbeat =>
      let st := { st with reg := BackgroundTaskManager.update_activity st.reg e.sessionId e.now }
      (stream_event .ping st, true)
  | .producerTimeout => (st, true)
  | .producerItem =>
      match st.prod with
      | [] => (st, false)
      | item :: rest =>
        match item with
        | .ok (.message m) =>
            let st := { st with prod := rest, allMessages := st.allMessages ++ [m] }
            let st := { st with reg := BackgroundTaskManager.update_activity st.reg e.sessionId e.now }
            (stream_event (.message m e.tok) st, true)
        | .ok (.historyReplaced c) =>
            let st := { st with prod := rest, allMessages := c }
            let st := { st with reg := BackgroundTaskManager.update_activity st.reg e.sessionId e.now }
            (stream_event (.updateConversation c) st, true)
        | .ok (.modelChange model mode) =>
            (stream_event (.modelChange model mode) { st with prod := rest }, true)
        | .ok (.mcpNotification rid n) =>
            (stream_event (.notification rid n) { st with prod := rest }, true)
        | .error er =>
            (stream_event (.error er) { st with prod := rest, taskError := true }, false)

/-- Run the select loop under a schedule of wake-ups; `some` is the state at
`break`, `none` means the schedule ended with the loop still running. -/
def runLoop (e : Env) : List Wake → OrchState → Option OrchState
  | [], _ => none
  | w :: ws, st =>
      match loopStep e st w with
      | (st2, false) => some st2
      | (st2, true) => runLoop e ws st2

/-- After the loop (`reply.rs:457-474`): emit the terminal
`Finish { reason: "stop", token_state }` and mark the task completed or
errored. -/
def finishPhase (e : Env) (st : OrchState) : OrchState :=
  let st := stream_event (.finish "stop" e.tok) st
  if st.taskError then
    { st with reg := BackgroundTaskManager.mark_error st.reg e.sessionId e.now }
  else
    { st with reg := BackgroundTaskManager.mark_completed st.reg e.sessionId e.now }

/-- The whole spawned body of `reply`: `some` terminated state, or `none`
when the schedule ran out with the loop still live. -/
def replyTask (e : Env) (sched : List Wake) : Option OrchState :=
  match setup e with
  | .error st => some st
  | .ok st0 => (runLoop e sched st0).map (finishPhase e)

/-- Models `POST /sessions/\x7bid\x7d/cancel-task` arriving between registration and the
loop's first wake-up: `cancel_task` on the shared registry, which fires the
very token the orchestrator's cancellation branch selects on. -/
def earlyCancel (e : Env) (st : OrchState) : OrchState :=
  { st with
    reg := (BackgroundTaskManager.cancel_task st.reg e.sessionId).1
    cancelFired := true }

/-- A run in which the task is cancelled before the producer yields
anything (the spec's cancel-before-first-yield scenario). -/
def replyTaskEarlyCancel (e : Env) (sched : List Wake) : Option OrchState :=
  match setup e with
  | .error st => some st
  | .ok st0 => (runLoop e sched (earlyCancel e st0)).map (finishPhase e)

/-- No `Finish` event anywhere in a list. -/
def noFinish (l : List MessageEvent) : Prop :=
  ∀ r t, MessageEvent.finish r t ∉ l

/-! ## Registry lemmas -/

theorem lookupTask_removeTask_self (ts : Registry) (sid : String) :
    lookupTask (removeTask ts sid) sid = none := by
  induction ts with
  | nil => rfl
  | cons p rest ih =>
      obtain ⟨k, h⟩ := p
      by_cases hk : k = sid <;> simp [removeTask, lookupTask, hk, ih]

theorem lookupTask_removeTask_ne (ts : Registry) (sid k : String) (hk : k ≠ sid) :
    lookupTask (removeTask ts sid) k = lookupTask ts k := by
  induction ts with
  | nil => rfl
  | cons p rest ih =>
      obtain ⟨k', h⟩ := p
      by_cases hk' : k' = sid
      · subst hk'
        simp [removeTask, lookupTask, Ne.symm hk, ih]
      · by_cases hkk : k' = k <;> simp [removeTask, lookupTask, hk', hkk, hk, ih]

theorem lookupTask_updateTask_self (ts : Registry) (sid : String) (f : TaskHandle → TaskHandle) :
    lookupTask (updateTask ts sid f) sid = (lookupTask ts sid).map f := by
  induction ts with
  | nil => rfl
  | cons p rest ih =>
      obtain ⟨k, h⟩ := p
      by_cases hk : k = sid <;> simp [updateTask, lookupTask, hk, ih]

theorem lookupTask_updateTask_ne (ts : Registry) (sid k : String)
    (f : TaskHandle → TaskHandle) (hk : k ≠ sid) :
    lookupTask (updateTask ts sid f) k = lookupTask ts k := by
  induction ts with
  | nil => rfl
  | cons p rest ih =>
      obtain ⟨k', h⟩ := p
      by_cases hk' : k' = sid
      · subst hk'
        simp [updateTask, lookupTask, Ne.symm hk, ih]
      · by_cases hkk : k' = k <;> simp [updateTask, lookupTask, hk', hkk, hk, ih]

theorem registryKeys_updateTask (ts : Registry) (sid : String) (f : TaskHandle → TaskHandle) :
    registryKeys (updateTask ts sid f) = registryKeys ts := by
  induction ts with
  | nil => rfl
  | cons p rest ih =>
      obtain ⟨k, h⟩ := p
      by_cases hk : k = sid <;> simp [updateTask, registryKeys, hk] <;>
        simpa [registryKeys] using ih

theorem mem_registryKeys_removeTask (ts : Registry) (sid k : String) :
    k ∈ registryKeys (removeTask ts sid) → k ∈ registryKeys ts ∧ k ≠ sid := by
  induction ts with
  | nil => simp [removeTask, registryKeys]
  | cons p rest ih =>
      obtain ⟨k', h⟩ := p
      by_cases hk' : k' = sid
      · subst hk'
        simp only [removeTask, if_pos rfl]
        intro hm
        rcases ih hm with ⟨h1, h2⟩
        exact ⟨by simp [registryKeys] at h1 ⊢; exact Or.inr h1, h2⟩
      · simp only [removeTask, if_neg hk', registryKeys, List.map_cons, List.mem_cons]
        rintro (rfl | hm)
        · exact ⟨Or.inl rfl, hk'⟩
        · rcases ih hm with ⟨h1, h2⟩
          exact ⟨Or.inr (by simpa [registryKeys] using h1), h2⟩

theorem nodup_registryKeys_removeTask (ts : Registry) (sid : String)
    (hd : (registryKeys ts).Nodup) : (registryKeys (removeTask ts sid)).Nodup := by
  induction ts with
  | nil => simp [removeTask, registryKeys]
  | cons p rest ih =>
      obtain ⟨k, h⟩ := p
      simp only [registryKeys, List.map_cons, List.nodup_cons] at hd
      by_cases hk : k = sid
      · simpa [removeTask, hk] using ih hd.2
      · simp only [removeTask, if_neg hk, registryKeys, List.map_cons, List.nodup_cons]
        refine ⟨fun hm => ?_, ih hd.2⟩
        exact hd.1 (mem_registryKeys_removeTask rest sid k hm).1

/-! ## Orchestrator lemmas -/

theorem isSome_lookupTask_updateTask (ts : Registry) (sid k : String)
    (f : TaskHandle → TaskHandle) :
    (lookupTask (updateTask ts sid f) k).isSome = (lookupTask ts k).isSome := by
  by_cases hk : k = sid
  · subst hk
    rw [lookupTask_updateTask_self]
    cases lookupTask ts k <;> rfl
  · rw [lookupTask_updateTask_ne _ _ _ _ hk]

theorem isSome_lookupTask_update_activity (ts : Registry) (sid : String) (now : Int)
    (k : String) :
    (lookupTask (BackgroundTaskManager.update_activity ts sid now) k).isSome
      = (lookupTask ts k).isSome := by
  unfold BackgroundTaskManager.update_activity
  cases lookupTask ts sid
  · rfl
  · exact isSome_lookupTask_updateTask ts sid k _

theorem lookupStatus_mark_completed (ts : Registry) (sid : String) (now : Int)
    (hl : (lookupTask ts sid).isSome = true) :
    lookupStatus (BackgroundTaskManager.mark_completed ts sid now) sid
      = some TaskStatus.Completed := by
  unfold BackgroundTaskManager.mark_completed
  cases hl' : lookupTask ts sid with
  | none => rw [hl'] at hl; simp at hl
  | some h => simp [lookupStatus, lookupTask_updateTask_self, hl']

theorem lookupStatus_mark_error (ts : Registry) (sid : String) (now : Int)
    (hl : (lookupTask ts sid).isSome = true) :
    lookupStatus (BackgroundTaskManager.mark_error ts sid now) sid
      = some TaskStatus.Error := by
  unfold BackgroundTaskManager.mark_error
  cases hl' : lookupTask ts sid with
  | none => rw [hl'] at hl; simp at hl
  | some h => simp [lookupStatus, lookupTask_updateTask_self, hl']

theorem noFinish_nil : noFinish [] := by simp [noFinish]

theorem noFinish_append (l1 l2 : List MessageEvent) (h1 : noFinish l1) (h2 : noFinish l2) :
    noFinish (l1 ++ l2) := by
  intro r t hm
  rcases List.mem_append.1 hm with hm | hm
  · exact h1 r t hm
  · exact h2 r t hm

/-- Per-iteration facts about the select loop: it appends only
non-`Finish` events to the emission trace, it never changes which
sessions are present in the registry, the continuing branches leave
`task_error` alone, and a break either leaves `task_error` alone
(cancellation, clean end of stream) or sets it after emitting exactly one
`Error` (producer failure). -/
theorem loopStep_facts (e : Env) (st : OrchState) (w : Wake) :
    (∃ l, (loopStep e st w).1.emitted = st.emitted ++ l ∧ noFinish l) ∧
    (∀ k, (lookupTask (loopStep e st w).1.reg k).isSome = (lookupTask st.reg k).isSome) ∧
    ((loopStep e st w).2 = true → (loopStep e st w).1.taskError = st.taskError) ∧
    ((loopStep e st w).2 = false →
      (loopStep e st w).1.taskError = st.taskError ∨
      ∃ er, (loopStep e st w).1.emitted = st.emitted ++ [MessageEvent.error er] ∧
        (loopStep e st w).1.taskError = true) := by
  cases w with
  | cancelSignal =>
      by_cases hc : st.cancelFired <;>
        exact ⟨⟨[], by simp [loopStep, hc], noFinish_nil⟩,
          fun k => by simp [loopStep, hc],
          fun _ => by simp [loopStep, hc],
          fun _ => Or.inl (by simp [loopStep, hc])⟩
  | heartbeat =>
      refine ⟨⟨[.ping], by simp [loopStep, stream_event], by simp [noFinish]⟩,
        fun k => ?_, fun _ => by simp [loopStep, stream_event], fun hb => ?_⟩
      · simp only [loopStep, stream_event]
        exact isSome_lookupTask_update_activity st.reg e.sessionId e.now k
      · simp [loopStep] at hb
  | producerTimeout =>
      exact ⟨⟨[], by simp [loopStep], noFinish_nil⟩, fun k => by simp [loopStep],
        fun _ => by simp [loopStep], fun hb => by simp [loopStep] at hb⟩
  | producerItem =>
      rcases hp : st.prod with _ | ⟨item, rest⟩
      · exact ⟨⟨[], by simp [loopStep, hp], noFinish_nil⟩, fun k => by simp [loopStep, hp],
          fun hc => by simp [loopStep, hp] at hc, fun _ => Or.inl (by simp [loopStep, hp])⟩
      · rcases item with er | ev
        · exact ⟨⟨[.error er], by simp [loopStep, hp, stream_event], by simp [noFinish]⟩,
            fun k => by simp [loopStep, hp, stream_event],
            fun hc => by simp [loopStep, hp, stream_event] at hc,
            fun _ => Or.inr ⟨er, by simp [loopStep, hp, stream_event]⟩⟩
        · rcases ev with m | c | ⟨model, mode⟩ | ⟨rid, n⟩
          · refine ⟨⟨[.message m e.tok], by simp [loopStep, hp, stream_event], by simp [noFinish]⟩,
              fun k => ?_, fun _ => by simp [loopStep, hp, stream_event], fun hb => ?_⟩
            · simp only [loopStep, hp, stream_event]
              exact isSome_lookupTask_update_activity st.reg e.sessionId e.now k
            · simp [loopStep, hp] at hb
          · refine ⟨⟨[.updateConversation c], by simp [loopStep, hp, stream_event], by simp [noFinish]⟩,
              fun k => ?_, fun _ => by simp [loopStep, hp, stream_event], fun hb => ?_⟩
            · simp only [loopStep, hp, stream_event]
              exact isSome_lookupTask_update_activity st.reg e.sessionId e.now k
            · simp [loopStep, hp] at hb
          · exact ⟨⟨[.modelChange model mode], by simp [loopStep, hp, stream_event], by simp [noFinish]⟩,
              fun k => by simp [loopStep, hp, stream_event],
              fun _ => by simp [loopStep, hp, stream_event],
              fun hb => by simp [loopStep, hp] at hb⟩
          · exact ⟨⟨[.notification rid n], by simp [loopStep, hp, stream_event], by simp [noFinish]⟩,
              fun k => by simp [loopStep, hp, stream_event],
              fun _ => by simp [loopStep, hp, stream_event],
              fun hb => by simp [loopStep, hp] at hb⟩

/-- Whole-loop invariants, by induction over the schedule: the loop only
appends non-`Finish` events, preserves which sessions the registry knows,
and ends with `task_error` set only when the last thing it emitted was a
producer `Error`. -/
theorem runLoop_facts (e : Env) :
    ∀ (sched : List Wake) (st0 st1 : OrchState), runLoop e sched st0 = some st1 →
      (∃ l, st1.emitted = st0.emitted ++ l ∧ noFinish l) ∧
      (∀ k, (lookupTask st1.reg k).isSome = (lookupTask st0.reg k).isSome) ∧
      (st1.taskError = true → st0.taskError = true ∨
        ∃ er pre, st1.emitted = pre ++ [MessageEvent.error er])
  | [], st0, st1, h => by simp [runLoop] at h
  | w :: ws, st0, st1, h => by
      have hf := loopStep_facts e st0 w
      rcases hstep : loopStep e st0 w with ⟨st2, b⟩
      rw [hstep] at hf
      simp only [runLoop, hstep] at h
      cases b with
      | false =>
          simp only [Option.some.injEq] at h
          subst h
          refine ⟨hf.1, hf.2.1, fun he => ?_⟩
          rcases hf.2.2.2 rfl with heq | ⟨er, hem, _⟩
          · exact Or.inl (by rw [← heq]; exact he)
          · exact Or.inr ⟨er, st0.emitted, hem⟩
      | true =>
          have ih := runLoop_facts e ws st2 st1 h
          rcases hf with ⟨⟨l1, he1, hn1⟩, hreg1, hcont, _⟩
          rcases ih with ⟨⟨l2, he2, hn2⟩, hreg2, herr2⟩
          refine ⟨⟨l1 ++ l2, by rw [he2, he1, List.append_assoc], noFinish_append _ _ hn1 hn2⟩,
            fun k => (hreg2 k).trans (hreg1 k), fun he => ?_⟩
          rcases herr2 he with h2 | h2
          · exact Or.inl (by rw [← hcont rfl]; exact h2)
          · exact Or.inr h2

theorem finishPhase_emitted (e : Env) (st : OrchState) :
    (finishPhase e st).emitted = st.emitted ++ [MessageEvent.finish "stop" e.tok] := by
  unfold finishPhase stream_event
  by_cases ht : st.taskError <;> simp [ht]

theorem finishPhase_taskError (e : Env) (st : OrchState) :
    (finishPhase e st).taskError = st.taskError := by
  unfold finishPhase stream_event
  by_cases ht : st.taskError <;> simp [ht]

theorem finishPhase_reg (e : Env) (st : OrchState) :
    (finishPhase e st).reg =
      (if st.taskError then BackgroundTaskManager.mark_error st.reg e.sessionId e.now
       else BackgroundTaskManager.mark_completed st.reg e.sessionId e.now) := by
  unfold finishPhase stream_event
  by_cases ht : st.taskError <;> simp [ht]

theorem setup_ok (e : Env) (hok : setupOk e = true) : setup e = .ok (initOrch e) := by
  unfold setupOk at hok
  simp only [decide_eq_true_eq] at hok
  obtain ⟨ha, hs, hm, hr⟩ := hok
  rcases hml : e.messages.getLast? with _ | m
  · exact absurd (by simpa using hml) hm
  · simp [setup, ha, hs, hr, hml]

/-- Presence of a session is unchanged by `cancel_task`. -/
theorem isSome_lookupTask_cancel_task (ts : Registry) (sid k : String) :
    (lookupTask (BackgroundTaskManager.cancel_task ts sid).1 k).isSome
      = (lookupTask ts k).isSome := by
  unfold BackgroundTaskManager.cancel_task
  cases lookupTask ts sid
  · rfl
  · exact isSome_lookupTask_updateTask ts sid k _

/-- The freshly registered session is present in the registry. -/
theorem isSome_lookupTask_initOrch (e : Env) :
    (lookupTask (initOrch e).reg e.sessionId).isSome = true := by
  simp [initOrch, BackgroundTaskManager.register_task, lookupTask]

/-- Returns `true` exactly on `Finish` events. -/
def isFinish : MessageEvent → Bool
  | .finish _ _ => true
  | _ => false

/-! ## C1 — terminal statuses and `cancel_task` -/

/-- A registered task that has already completed. -/
def c1CompletedHandle : TaskHandle :=
  { cancelToken := false, status := TaskStatus.Completed, lastActivity := 0,
    bc := Broadcaster.new }

/-- C1 is false of the code: `cancel_task` on a session whose status is the
terminal `Completed` does not leave the status unchanged — it overwrites it
with `Cancelled` (the source guards only on presence, never on the current
status). -/
theorem c1_counterexample :
    lookupStatus (BackgroundTaskManager.cancel_task [("s1", c1CompletedHandle)] "s1").1 "s1"
        = some TaskStatus.Cancelled
    ∧ c1CompletedHandle.status = TaskStatus.Completed
    ∧ TaskStatus.Completed.isTerminal = true
    ∧ TaskStatus.Cancelled ≠ TaskStatus.Completed := by
  decide

/-- C1 (amended): `cancel_task` on a registered session — whatever its
status, terminal included — returns `true`, fires the token and sets the
status to `Cancelled`, leaving the key set, activity timestamp and
broadcaster of the handle unchanged; so `Completed`/`Error` are not
absorbing under `cancel_task`.  On an unknown session it returns `false`
and leaves the registry untouched. -/
theorem c1_cancel_task_behaviour (ts : Registry) (sid : String) :
    (lookupTask ts sid = none → BackgroundTaskManager.cancel_task ts sid = (ts, false)) ∧
    (∀ h, lookupTask ts sid = some h →
      (BackgroundTaskManager.cancel_task ts sid).2 = true ∧
      lookupTask (BackgroundTaskManager.cancel_task ts sid).1 sid
        = some { h with cancelToken := true, status := TaskStatus.Cancelled } ∧
      registryKeys (BackgroundTaskManager.cancel_task ts sid).1 = registryKeys ts ∧
      (∀ k, k ≠ sid → lookupTask (BackgroundTaskManager.cancel_task ts sid).1 k
        = lookupTask ts k)) := by
  constructor
  · intro hn
    simp [BackgroundTaskManager.cancel_task, hn]
  · intro h hl
    refine ⟨by simp [BackgroundTaskManager.cancel_task, hl], ?_, ?_, ?_⟩
    · simp [BackgroundTaskManager.cancel_task, hl, lookupTask_updateTask_self]
    · simp [BackgroundTaskManager.cancel_task, hl, registryKeys_updateTask]
    · intro k hk
      simp [BackgroundTaskManager.cancel_task, hl, lookupTask_updateTask_ne _ _ _ _ hk]

/-- Witness for `c1_cancel_task_behaviour` at concrete inputs. -/
theorem c1_cancel_task_behaviour_witness :
    BackgroundTaskManager.cancel_task ([] : Registry) "s1" = ([], false) ∧
    lookupTask (BackgroundTaskManager.cancel_task [("s1", c1CompletedHandle)] "s1").1 "s1"
      = some { c1CompletedHandle with cancelToken := true, status := TaskStatus.Cancelled } :=
  ⟨(c1_cancel_task_behaviour [] "s1").1 (by decide),
   ((c1_cancel_task_behaviour [("s1", c1CompletedHandle)] "s1").2
      c1CompletedHandle (by decide)).2.1⟩

/-! ## C2 — registering over an existing session -/

/-- A running task about to be superseded. -/
def c2RunningHandle : TaskHandle :=
  { cancelToken := false, status := TaskStatus.Running, lastActivity := 0,
    bc := Broadcaster.new }

/-- C2 is false of the code as stated: at the moment `register_task`
replaces the old entry, the superseded handle's cancellation token has been
fired but its status field is still `Running` — the old task transitions
away from `Running` only later (cooperatively, when its orchestrator
observes the token), not "before the new entry replaces it". -/
theorem c2_counterexample :
    ((BackgroundTaskManager.register_task [("s1", c2RunningHandle)] "s1" false 5).oldHandle).map
        TaskHandle.cancelToken = some true
    ∧ ((BackgroundTaskManager.register_task [("s1", c2RunningHandle)] "s1" false 5).oldHandle).map
        TaskHandle.status = some TaskStatus.Running
    ∧ TaskStatus.Running.isTerminal = false := by
  decide

/-- C2 (amended): when a task already exists for the session,
`register_task` fires its cancellation token (without waiting for it to
exit — its status is still whatever it was, `Running` included) and removes
its entry before inserting the fresh `Running` handle, so the registry holds
at most one entry — hence at most one `Running` task — per session
identifier at all times. -/
theorem c2_register_task_supersede (ts : Registry) (sid : String) (tokF : Bool)
    (now : Int) (h : TaskHandle) (hl : lookupTask ts sid = some h) :
    (BackgroundTaskManager.register_task ts sid tokF now).oldHandle
        = some { h with cancelToken := true } ∧
    ({ h with cancelToken := true } : TaskHandle).status = h.status ∧
    lookupTask (BackgroundTaskManager.register_task ts sid tokF now).reg sid
        = some (TaskHandle.new tokF now) ∧
    (TaskHandle.new tokF now).status = TaskStatus.Running ∧
    (∀ k, k ≠ sid →
      lookupTask (BackgroundTaskManager.register_task ts sid tokF now).reg k
        = lookupTask ts k) ∧
    ((registryKeys ts).Nodup →
      (registryKeys (BackgroundTaskManager.register_task ts sid tokF now).reg).Nodup) := by
  refine ⟨by simp [BackgroundTaskManager.register_task, hl], rfl,
    by simp [BackgroundTaskManager.register_task, lookupTask], rfl, ?_, ?_⟩
  · intro k hk
    simp only [BackgroundTaskManager.register_task, lookupTask, if_neg (Ne.symm hk)]
    exact lookupTask_removeTask_ne ts sid k hk
  · intro hd
    have hkeys : registryKeys (BackgroundTaskManager.register_task ts sid tokF now).reg
        = sid :: registryKeys (removeTask ts sid) := by
      simp [BackgroundTaskManager.register_task, registryKeys]
    rw [hkeys, List.nodup_cons]
    exact ⟨fun hm => (mem_registryKeys_removeTask ts sid sid hm).2 rfl,
      nodup_registryKeys_removeTask ts sid hd⟩

/-- Witness for `c2_register_task_supersede` at concrete inputs. -/
theorem c2_register_task_supersede_witness :
    (BackgroundTaskManager.register_task [("s1", c2RunningHandle)] "s1" false 5).oldHandle
        = some { c2RunningHandle with cancelToken := true } ∧
    lookupTask (BackgroundTaskManager.register_task [("s1", c2RunningHandle)] "s1" false 5).reg "s1"
        = some (TaskHandle.new false 5) :=
  ⟨(c2_register_task_supersede [("s1", c2RunningHandle)] "s1" false 5 c2RunningHandle
      (by decide)).1,
   (c2_register_task_supersede [("s1", c2RunningHandle)] "s1" false 5 c2RunningHandle
      (by decide)).2.2.1⟩

/-! ## C5 — `cleanup_task` removal condition -/

/-- C5: `cleanup_task` removes a session's entry exactly when the task is
present with a terminal status and a subscriber-free broadcaster; with a
`Running` status, or any attached receiver, or an unknown session, the
registry is returned unchanged — and entries of other sessions are never
touched. -/
theorem c5_cleanup_task_characterisation (ts : Registry) (sid : String) :
    (lookupTask ts sid = none → BackgroundTaskManager.cleanup_task ts sid = ts) ∧
    (∀ h, lookupTask ts sid = some h →
      (h.status.isTerminal = true → h.bc.receivers = 0 →
        BackgroundTaskManager.cleanup_task ts sid = removeTask ts sid ∧
        lookupTask (BackgroundTaskManager.cleanup_task ts sid) sid = none) ∧
      (h.status = TaskStatus.Running ∨ h.bc.receivers ≠ 0 →
        BackgroundTaskManager.cleanup_task ts sid = ts)) ∧
    (∀ k, k ≠ sid →
      lookupTask (BackgroundTaskManager.cleanup_task ts sid) k = lookupTask ts k) := by
  refine ⟨fun hn => by simp [BackgroundTaskManager.cleanup_task, hn],
    fun h hl => ⟨fun ht hr => ?_, fun hor => ?_⟩, fun k hk => ?_⟩
  · have hs : h.status ≠ TaskStatus.Running := by
      cases hst : h.status <;> simp [TaskStatus.isTerminal, hst] at ht ⊢
    have hrem : BackgroundTaskManager.cleanup_task ts sid = removeTask ts sid := by
      simp [BackgroundTaskManager.cleanup_task, hl, hs, hr]
    exact ⟨hrem, by rw [hrem]; exact lookupTask_removeTask_self ts sid⟩
  · rcases hor with hrun | hrecv
    · simp [BackgroundTaskManager.cleanup_task, hl, hrun]
    · simp [BackgroundTaskManager.cleanup_task, hl, hrecv]
  · unfold BackgroundTaskManager.cleanup_task
    cases hl : lookupTask ts sid with
    | none => rfl
    | some h =>
        by_cases hc : h.status ≠ TaskStatus.Running ∧ h.bc.receivers = 0
        · simp only [if_pos hc]
          exact lookupTask_removeTask_ne ts sid k hk
        · simp only [if_neg hc]

/-- Witness for `c5_cleanup_task_characterisation`: a two-entry registry in
which a completed, subscriber-free task is reaped, a running task is kept,
and an unknown session is a no-op. -/
theorem c5_cleanup_task_witness :
    BackgroundTaskManager.cleanup_task
        [("s1", c1CompletedHandle), ("s2", c2RunningHandle)] "s1"
      = removeTask [("s1", c1CompletedHandle), ("s2", c2RunningHandle)] "s1" ∧
    BackgroundTaskManager.cleanup_task
        [("s1", c1CompletedHandle), ("s2", c2RunningHandle)] "s2"
      = [("s1", c1CompletedHandle), ("s2", c2RunningHandle)] ∧
    BackgroundTaskManager.cleanup_task
        [("s1", c1CompletedHandle), ("s2", c2RunningHandle)] "s3"
      = [("s1", c1CompletedHandle), ("s2", c2RunningHandle)] :=
  ⟨(((c5_cleanup_task_characterisation
        [("s1", c1CompletedHandle), ("s2", c2RunningHandle)] "s1").2.1
      c1CompletedHandle (by decide)).1 (by decide) (by decide)).1,
   ((c5_cleanup_task_characterisation
        [("s1", c1CompletedHandle), ("s2", c2RunningHandle)] "s2").2.1
      c2RunningHandle (by decide)).2 (Or.inl (by decide)),
   (c5_cleanup_task_characterisation
        [("s1", c1CompletedHandle), ("s2", c2RunningHandle)] "s3").1 (by decide)⟩

/-! ## C6 — `subscribe` positioning and activity refresh -/

/-- C6: `subscribe` answers `None` exactly for unknown sessions; for a known
one it bumps the handle's activity to now, attaches one more receiver, and
the returned cursor sits at the current end of the broadcast log, so the
new subscriber receives none of the already-published events — only
whatever is appended afterwards. -/
theorem c6_subscribe_fresh (ts : Registry) (sid : String) (now : Int) :
    ((BackgroundTaskManager.subscribe ts sid now).2 = none ↔ lookupTask ts sid = none) ∧
    (∀ h, lookupTask ts sid = some h →
      (BackgroundTaskManager.subscribe ts sid now).2 = some h.bc.log.length ∧
      lookupTask (BackgroundTaskManager.subscribe ts sid now).1 sid
        = some { h with
            lastActivity := now
            bc := { h.bc with receivers := h.bc.receivers + 1 } } ∧
      receivedFrom h.bc.log h.bc.log.length = [] ∧
      (∀ ext, receivedFrom (h.bc.log ++ ext) h.bc.log.length = ext)) := by
  constructor
  · cases hl : lookupTask ts sid <;>
      simp [BackgroundTaskManager.subscribe, hl]
  · intro h hl
    refine ⟨by simp [BackgroundTaskManager.subscribe, hl], ?_,
      by simp [receivedFrom], fun ext => ?_⟩
    · simp [BackgroundTaskManager.subscribe, hl, lookupTask_updateTask_self]
    · simp [receivedFrom]

/-- A handle whose broadcaster has already published two events. -/
def c6Handle : TaskHandle :=
  { cancelToken := false
    status := TaskStatus.Running
    lastActivity := 3
    bc := { log := [MessageEvent.ping, MessageEvent.ping], receivers := 1 } }

/-- Witness for `c6_subscribe_fresh`: the fresh subscription's cursor is 2
and it receives only events published after it attached. -/
theorem c6_subscribe_fresh_witness :
    (BackgroundTaskManager.subscribe [("s1", c6Handle)] "s1" 9).2 = some 2 ∧
    receivedFrom (c6Handle.bc.log ++ [MessageEvent.error "late"]) 2
      = [MessageEvent.error "late"] ∧
    (BackgroundTaskManager.subscribe ([] : Registry) "nope" 9).2 = none :=
  ⟨((c6_subscribe_fresh [("s1", c6Handle)] "s1" 9).2 c6Handle (by decide)).1,
   ((c6_subscribe_fresh [("s1", c6Handle)] "s1" 9).2 c6Handle
      (by decide)).2.2.2 [MessageEvent.error "late"],
   (c6_subscribe_fresh ([] : Registry) "nope" 9).1.2 (by decide)⟩

/-! ## C7 — dual emission and caller-channel independence -/

/-- The select loop's behaviour — broadcast log, registry, emission trace,
producer position, `task_error` and the continue/break decision — does not
depend on whether the original caller's channel is still connected; only
the caller log does. -/
theorem loopStep_tx_invariant (e : Env) (st : OrchState) (w : Wake) (b : Bool) :
    (loopStep e { st with txConnected := b } w).2 = (loopStep e st w).2 ∧
    (loopStep e { st with txConnected := b } w).1.bc = (loopStep e st w).1.bc ∧
    (loopStep e { st with txConnected := b } w).1.reg = (loopStep e st w).1.reg ∧
    (loopStep e { st with txConnected := b } w).1.emitted = (loopStep e st w).1.emitted ∧
    (loopStep e { st with txConnected := b } w).1.taskError = (loopStep e st w).1.taskError ∧
    (loopStep e { st with txConnected := b } w).1.prod = (loopStep e st w).1.prod := by
  cases w with
  | cancelSignal => by_cases hc : st.cancelFired <;> simp [loopStep, hc]
  | heartbeat => simp [loopStep, stream_event]
  | producerTimeout => simp [loopStep]
  | producerItem =>
      rcases hp : st.prod with _ | ⟨item, rest⟩
      · simp [loopStep, hp]
      · rcases item with er | ev
        · simp [loopStep, hp, stream_event]
        · rcases ev with m | c | ⟨model, mode⟩ | ⟨rid, n⟩ <;>
            simp [loopStep, hp, stream_event]

/-- C7: `stream_event` always attempts both deliveries — the event is
appended to the broadcast log whenever any receiver is attached and to the
caller log whenever the caller is connected — and a dead caller channel
changes nothing else: broadcast log, registry (hence task status),
emission trace, producer position and the loop's continue/break decision
are all identical whether or not the caller is connected. -/
theorem c7_dual_emission (ev : MessageEvent) (st : OrchState) :
    ((stream_event ev st).emitted = st.emitted ++ [ev]) ∧
    (st.bc.receivers > 0 → (stream_event ev st).bc.log = st.bc.log ++ [ev]) ∧
    (st.txConnected = true → (stream_event ev st).txLog = st.txLog ++ [ev]) ∧
    ((stream_event ev st).reg = st.reg) ∧
    ((stream_event ev st).taskError = st.taskError) ∧
    ((stream_event ev { st with txConnected := false }).bc
        = (stream_event ev { st with txConnected := true }).bc) ∧
    (∀ e w, (loopStep e { st with txConnected := false } w).2
        = (loopStep e { st with txConnected := true } w).2 ∧
      (loopStep e { st with txConnected := false } w).1.bc
        = (loopStep e { st with txConnected := true } w).1.bc ∧
      (loopStep e { st with txConnected := false } w).1.reg
        = (loopStep e { st with txConnected := true } w).1.reg ∧
      (loopStep e { st with txConnected := false } w).1.taskError
        = (loopStep e { st with txConnected := true } w).1.taskError) := by
  refine ⟨rfl, fun hr => ?_, fun ht => ?_, rfl, rfl, ?_, fun e w => ?_⟩
  · simp [stream_event, hr]
  · simp [stream_event, ht]
  · simp [stream_event]
  · obtain ⟨h2f, hbcf, hregf, _, htef, _⟩ := loopStep_tx_invariant e st w false
    obtain ⟨h2t, hbct, hregt, _, htet, _⟩ := loopStep_tx_invariant e st w true
    exact ⟨h2f.trans h2t.symm, hbcf.trans hbct.symm, hregf.trans hregt.symm,
      htef.trans htet.symm⟩

/-- Witness for `c7_dual_emission`: with one receiver attached and the
caller connected, a `Ping` reaches both sinks. -/
theorem c7_dual_emission_witness :
    (stream_event MessageEvent.ping
        { reg := [], bc := { log := [], receivers := 1 }, txConnected := true,
          txLog := [], emitted := [], prod := [], allMessages := [],
          taskError := false, cancelFired := false }).bc.log = [MessageEvent.ping] ∧
    (stream_event MessageEvent.ping
        { reg := [], bc := { log := [], receivers := 1 }, txConnected := true,
          txLog := [], emitted := [], prod := [], allMessages := [],
          taskError := false, cancelFired := false }).txLog = [MessageEvent.ping] :=
  ⟨((c7_dual_emission MessageEvent.ping
      { reg := [], bc := { log := [], receivers := 1 }, txConnected := true,
        txLog := [], emitted := [], prod := [], allMessages := [],
        taskError := false, cancelFired := false }).2.1 (by decide)),
   ((c7_dual_emission MessageEvent.ping
      { reg := [], bc := { log := [], receivers := 1 }, txConnected := true,
        txLog := [], emitted := [], prod := [], allMessages := [],
        taskError := false, cancelFired := false }).2.2.1 (by decide))⟩

/-! ## C8 — no cancellation priority in the select loop -/

/-- A reply environment whose producer has one message ready. -/
def envC8 : Env :=
  { sessionId := "s1"
    reg0 := []
    agentErr := none
    sessionErr := none
    messages := ["hi"]
    replyErr := none
    producer := [Except.ok (AgentEvent.message "m")]
    tok := TokenState.zero
    now := 0
    txConnected := true
    receivers0 := 1 }

/-- Mid-loop state in which the cancellation token has fired while a
producer event is also ready. -/
def stC8 : OrchState :=
  { reg := (BackgroundTaskManager.register_task [] "s1" false 0).reg
    bc := { log := [], receivers := 1 }
    txConnected := true
    txLog := []
    emitted := []
    prod := [Except.ok (AgentEvent.message "m")]
    allMessages := ["hi"]
    taskError := false
    cancelFired := true }

/-- C8 is false of the code: `reply`'s `tokio::select!` has no `biased;`
clause, so when the cancellation signal and a producer event are ready in
the same iteration the runtime may poll the producer branch first.  In that
execution the loop pulls the event from the agent producer and continues —
it does not proceed to the cancellation exit — even though the
cancellation signal was simultaneously ready. -/
theorem c8_counterexample :
    stC8.cancelFired = true ∧
    stC8.prod ≠ [] ∧
    (loopStep envC8 stC8 Wake.producerItem).2 = true ∧
    (loopStep envC8 stC8 Wake.producerItem).1.prod = [] ∧
    (loopStep envC8 stC8 Wake.producerItem).1.emitted
      = [MessageEvent.message "m" TokenState.zero] := by
  decide

/-- C8 (amended): the select has no priority among simultaneously ready
branches; what holds is that in the iteration in which the cancellation
branch does run, the loop breaks immediately — emitting nothing (no
synthetic error), pulling nothing from the producer, and leaving the state
untouched. -/
theorem c8_cancel_branch_stops (e : Env) (st : OrchState)
    (h : st.cancelFired = true) :
    loopStep e st Wake.cancelSignal = (st, false) := by
  simp [loopStep, h]

/-- Witness for `c8_cancel_branch_stops` at the concrete fired state. -/
theorem c8_cancel_branch_stops_witness :
    loopStep envC8 stC8 Wake.cancelSignal = (stC8, false) :=
  c8_cancel_branch_stops envC8 stC8 (by decide)

/-! ## C3 — `Finish` as the last event -/

theorem setupFail_emitted (e : Env) (msg : String) :
    (setupFail e msg (initOrch e)).emitted = [MessageEvent.error msg] := by
  simp [setupFail, stream_event, initOrch]

/-- A failing setup stage produces exactly one `Error` terminated run. -/
theorem setup_fail (e : Env) (hbad : setupOk e = false) :
    ∃ msg, setup e = Except.error (setupFail e msg (initOrch e)) := by
  rcases ha : e.agentErr with _ | er
  · rcases hs : e.sessionErr with _ | er2
    · rcases hm : e.messages.getLast? with _ | m
      · exact ⟨"Reply started with empty messages", by rw [setup, ha, hs, hm]⟩
      · rcases hr : e.replyErr with _ | er3
        · exfalso
          have hok : setupOk e = true := by
            have hne : e.messages ≠ [] := by
              intro hnil
              rw [hnil] at hm
              simp at hm
            simp [setupOk, ha, hs, hr, hne]
          rw [hok] at hbad
          simp at hbad
        · exact ⟨er3, by rw [setup, ha, hs, hm, hr]⟩
    · exact ⟨"Failed to read session: " ++ er2, by rw [setup, ha, hs]⟩
  · exact ⟨"Failed to get session agent: " ++ er, by rw [setup, ha]⟩

/-- C3 (amended): on every exit path that goes through the streaming loop
(clean producer end, producer error, cancellation) the terminal `Finish` is
the last event emitted and no `Finish` occurs earlier; but on a setup
failure (agent/session resolution, empty messages, reply-stream start) the
run emits exactly one `Error` and no `Finish` at all — there the last event
is an `Error`, not a `Finish`. -/
theorem c3_finish_last (e : Env) (sched : List Wake) (st : OrchState)
    (h : replyTask e sched = some st) :
    (setupOk e = true →
      st.emitted.getLast? = some (MessageEvent.finish "stop" e.tok) ∧
      noFinish st.emitted.dropLast) ∧
    (setupOk e = false →
      (∃ m, st.emitted = [MessageEvent.error m]) ∧ noFinish st.emitted) := by
  constructor
  · intro hok
    rw [replyTask, setup_ok e hok] at h
    rcases Option.map_eq_some'.1 h with ⟨st1, hrun, hfin⟩
    subst hfin
    rcases (runLoop_facts e sched (initOrch e) st1 hrun).1 with ⟨l, hem, hnf⟩
    have hinit : (initOrch e).emitted = [] := rfl
    rw [finishPhase_emitted, hem, hinit, List.nil_append]
    exact ⟨List.getLast?_concat l, by rw [List.dropLast_concat]; exact hnf⟩
  · intro hbad
    rcases setup_fail e hbad with ⟨msg, hse⟩
    rw [replyTask, hse] at h
    simp only [Option.some.injEq] at h
    subst h
    rw [setupFail_emitted]
    exact ⟨⟨msg, rfl⟩, by simp [noFinish]⟩

/-- A setup environment in which all four stages succeed and the producer
ends immediately. -/
def envC3ok : Env :=
  { sessionId := "s1"
    reg0 := []
    agentErr := none
    sessionErr := none
    messages := ["hi"]
    replyErr := none
    producer := []
    tok := TokenState.zero
    now := 0
    txConnected := true
    receivers0 := 1 }

/-- Witness for `c3_finish_last`: a clean run whose last event is the
`Finish`, and an agent-lookup failure whose only event is an `Error`. -/
theorem c3_finish_last_witness :
    (replyTask envC3ok [Wake.producerItem]).elim False
      (fun st => st.emitted.getLast? = some (MessageEvent.finish "stop" TokenState.zero)) ∧
    (replyTask { envC3ok with agentErr := some "boom" } []).elim False
      (fun st => ∃ m, st.emitted = [MessageEvent.error m]) := by
  constructor
  · cases hr : replyTask envC3ok [Wake.producerItem] with
    | none => exact absurd hr (by decide)
    | some st =>
        simp only [Option.elim]
        exact ((c3_finish_last envC3ok [Wake.producerItem] st hr).1 (by decide)).1
  · cases hr : replyTask { envC3ok with agentErr := some "boom" } [] with
    | none => exact absurd hr (by decide)
    | some st =>
        simp only [Option.elim]
        exact ((c3_finish_last { envC3ok with agentErr := some "boom" } [] st hr).2
          (by decide)).1

/-- C3 is false of the code as stated: for a setup failure (here: the
agent lookup fails) the spawned task emits a single `Error` and returns —
the last event of the run is not a `Finish`, and no `Finish` is ever
emitted. -/
theorem c3_counterexample :
    (replyTask { envC3ok with agentErr := some "boom" } []).map
        (fun st => (st.emitted.getLast?.map isFinish, st.emitted.map isFinish))
      = some (some false, [false]) := by
  decide

/-! ## C4 — terminal `Finish` reason and post-cancellation status -/

/-- Any run that breaks out of the loop without a producer error ends with
`Finish{reason:"stop"}` as its last event and `mark_completed` on the
session. -/
theorem runFinish_completed (e : Env) (st0 st : OrchState) (sched : List Wake)
    (hreg : (lookupTask st0.reg e.sessionId).isSome = true)
    (h : (runLoop e sched st0).map (finishPhase e) = some st)
    (hte : st.taskError = false) :
    st.emitted.getLast? = some (MessageEvent.finish "stop" e.tok) ∧
    lookupStatus st.reg e.sessionId = some TaskStatus.Completed := by
  rcases Option.map_eq_some'.1 h with ⟨st1, hrun, hfin⟩
  subst hfin
  have hte1 : st1.taskError = false := by
    rw [← finishPhase_taskError e st1]
    exact hte
  have hfacts := runLoop_facts e sched st0 st1 hrun
  have hsome : (lookupTask st1.reg e.sessionId).isSome = true := by
    rw [hfacts.2.1 e.sessionId]
    exact hreg
  constructor
  · rw [finishPhase_emitted]
    exact List.getLast?_concat _
  · have hr : (finishPhase e st1).reg
        = BackgroundTaskManager.mark_completed st1.reg e.sessionId e.now := by
      rw [finishPhase_reg]
      simp [hte1]
    rw [hr]
    exact lookupStatus_mark_completed st1.reg e.sessionId e.now hsome

/-- C4 is false of the code: in the spec's cancel-before-first-yield
scenario the subscriber does not observe `Finish{reason="cancelled"}` and
the final status is not `Cancelled`.  The loop's cancellation exit falls
through to the common epilogue, which emits `Finish{reason:"stop"}`
(the reason string is the literal `"stop"` on every loop exit path) and
then — because `task_error` is false — calls `mark_completed`, overwriting
the `Cancelled` status that `cancel_task` had set with `Completed`. -/
theorem c4_counterexample :
    (replyTaskEarlyCancel envC8 [Wake.cancelSignal]).map
        (fun st => (st.emitted, st.bc.log, lookupStatus st.reg "s1"))
      = some ([MessageEvent.finish "stop" TokenState.zero],
          [MessageEvent.finish "stop" TokenState.zero],
          some TaskStatus.Completed) ∧
    "stop" ≠ "cancelled" ∧
    TaskStatus.Completed ≠ TaskStatus.Cancelled := by
  decide

/-- C4 (amended): whatever the exit path out of the streaming loop — a task
cancelled before the producer yields anything included — the run ends with
`Finish{reason:"stop"}` as the last event, and when no producer error
occurred the registry status afterwards is `Completed` (not `Cancelled`,
even for a cancelled task: the epilogue's `mark_completed` overwrites the
status set by `cancel_task`).  A clean producer completion gives the same
`Finish{reason:"stop"}` and `Completed`. -/
theorem c4_finish_reason_and_status (e : Env) (sched : List Wake) (st : OrchState)
    (hok : setupOk e = true) (hte : st.taskError = false)
    (h : replyTaskEarlyCancel e sched = some st ∨ replyTask e sched = some st) :
    st.emitted.getLast? = some (MessageEvent.finish "stop" e.tok) ∧
    lookupStatus st.reg e.sessionId = some TaskStatus.Completed := by
  rcases h with h | h
  · rw [replyTaskEarlyCancel, setup_ok e hok] at h
    refine runFinish_completed e (earlyCancel e (initOrch e)) st sched ?_ h hte
    have hreg : (earlyCancel e (initOrch e)).reg
        = (BackgroundTaskManager.cancel_task (initOrch e).reg e.sessionId).1 := rfl
    rw [hreg, isSome_lookupTask_cancel_task]
    exact isSome_lookupTask_initOrch e
  · rw [replyTask, setup_ok e hok] at h
    exact runFinish_completed e (initOrch e) st sched (isSome_lookupTask_initOrch e) h hte

/-- Witness for `c4_finish_reason_and_status` on both scenarios: the
early-cancelled run and a clean run. -/
theorem c4_finish_reason_and_status_witness :
    (replyTaskEarlyCancel envC8 [Wake.cancelSignal]).elim False
      (fun st => st.emitted.getLast? = some (MessageEvent.finish "stop" TokenState.zero) ∧
        lookupStatus st.reg "s1" = some TaskStatus.Completed) ∧
    (replyTask envC3ok [Wake.producerItem]).elim False
      (fun st => st.emitted.getLast? = some (MessageEvent.finish "stop" TokenState.zero) ∧
        lookupStatus st.reg "s1" = some TaskStatus.Completed) := by
  constructor
  · cases hr : replyTaskEarlyCancel envC8 [Wake.cancelSignal] with
    | none => exact absurd hr (by decide)
    | some st =>
        simp only [Option.elim]
        have hte : st.taskError = false := by
          have h2 : (replyTaskEarlyCancel envC8 [Wake.cancelSignal]).map
              (fun s => s.taskError) = some false := by decide
          rw [hr] at h2
          simpa using h2
        exact c4_finish_reason_and_status envC8 [Wake.cancelSignal] st (by decide) hte
          (Or.inl hr)
  · cases hr : replyTask envC3ok [Wake.producerItem] with
    | none => exact absurd hr (by decide)
    | some st =>
        simp only [Option.elim]
        have hte : st.taskError = false := by
          have h2 : (replyTask envC3ok [Wake.producerItem]).map
              (fun s => s.taskError) = some false := by decide
          rw [hr] at h2
          simpa using h2
        exact c4_finish_reason_and_status envC3ok [Wake.producerItem] st (by decide) hte
          (Or.inr hr)

/-! ## C9 — producer error is terminal -/

/-- C9: when the agent producer yields an error mid-stream the loop emits
that `Error`, breaks with `task_error` set, and the epilogue appends the
terminal `Finish` and calls `mark_error`: the trace ends
`..., Error, Finish` and the registry status for the session is `Error`.
No further loop iterations happen (the break is immediate; the function
returns after the epilogue — there is no retry). -/
theorem c9_producer_error (e : Env) (sched : List Wake) (st : OrchState)
    (hok : setupOk e = true) (h : replyTask e sched = some st)
    (hte : st.taskError = true) :
    (∃ pre er, st.emitted
        = pre ++ [MessageEvent.error er, MessageEvent.finish "stop" e.tok]) ∧
    lookupStatus st.reg e.sessionId = some TaskStatus.Error := by
  rw [replyTask, setup_ok e hok] at h
  rcases Option.map_eq_some'.1 h with ⟨st1, hrun, hfin⟩
  subst hfin
  have hte1 : st1.taskError = true := by
    rw [← finishPhase_taskError e st1]
    exact hte
  have hfacts := runLoop_facts e sched (initOrch e) st1 hrun
  have hsome : (lookupTask st1.reg e.sessionId).isSome = true := by
    rw [hfacts.2.1 e.sessionId]
    exact isSome_lookupTask_initOrch e
  rcases hfacts.2.2 hte1 with h0 | ⟨er, pre, hem⟩
  · exact absurd h0 (by simp [initOrch])
  constructor
  · refine ⟨pre, er, ?_⟩
    rw [finishPhase_emitted, hem, List.append_assoc]
    rfl
  · have hr : (finishPhase e st1).reg
        = BackgroundTaskManager.mark_error st1.reg e.sessionId e.now := by
      rw [finishPhase_reg]
      simp [hte1]
    rw [hr]
    exact lookupStatus_mark_error st1.reg e.sessionId e.now hsome

/-- A run whose producer fails immediately. -/
def envC9 : Env := { envC3ok with producer := [Except.error "agent blew up"] }

/-- Witness for `c9_producer_error` at a concrete failing producer. -/
theorem c9_producer_error_witness :
    (replyTask envC9 [Wake.producerItem]).elim False
      (fun st => (∃ pre er, st.emitted
          = pre ++ [MessageEvent.error er, MessageEvent.finish "stop" TokenState.zero]) ∧
        lookupStatus st.reg "s1" = some TaskStatus.Error) := by
  cases hr : replyTask envC9 [Wake.producerItem] with
  | none => exact absurd hr (by decide)
  | some st =>
      simp only [Option.elim]
      have hte : st.taskError = true := by
        have h2 : (replyTask envC9 [Wake.producerItem]).map (fun s => s.taskError)
            = some true := by decide
        rw [hr] at h2
        simpa using h2
      exact c9_producer_error envC9 [Wake.producerItem] st (by decide) hr hte

/-! ## C10 — empty messages guard -/

/-- C10: with agent and session resolution succeeding but an empty
`messages` list, the spawned task emits exactly one
`Error("Reply started with empty messages")` — delivered to the caller
channel when it is connected and to the broadcaster when any receiver is
attached — marks the task `Error`, and returns without ever emitting a
`Finish`. -/
theorem c10_empty_messages (e : Env) (sched : List Wake) (st : OrchState)
    (ha : e.agentErr = none) (hs : e.sessionErr = none) (hm : e.messages = [])
    (h : replyTask e sched = some st) :
    st.emitted = [MessageEvent.error "Reply started with empty messages"] ∧
    (e.txConnected = true → st.txLog = st.emitted) ∧
    (0 < e.receivers0 → st.bc.log = st.emitted) ∧
    lookupStatus st.reg e.sessionId = some TaskStatus.Error ∧
    noFinish st.emitted := by
  have hse : setup e
      = Except.error (setupFail e "Reply started with empty messages" (initOrch e)) := by
    rw [setup, ha, hs, hm]
    rfl
  rw [replyTask, hse] at h
  simp only [Option.some.injEq] at h
  subst h
  refine ⟨setupFail_emitted e _, fun ht => ?_, fun hrecv => ?_, ?_, ?_⟩
  · rw [setupFail_emitted]
    simp [setupFail, stream_event, initOrch, ht]
  · rw [setupFail_emitted]
    simp [setupFail, stream_event, initOrch, hrecv]
  · have hreg : (setupFail e "Reply started with empty messages" (initOrch e)).reg
        = BackgroundTaskManager.mark_error (initOrch e).reg e.sessionId e.now := by
      simp [setupFail, stream_event]
    rw [hreg]
    exact lookupStatus_mark_error _ _ _ (isSome_lookupTask_initOrch e)
  · rw [setupFail_emitted]
    simp [noFinish]

/-- A reply request with an empty messages list. -/
def envC10 : Env := { envC3ok with messages := [] }

/-- Witness for `c10_empty_messages` at the concrete empty request. -/
theorem c10_empty_messages_witness :
    (replyTask envC10 []).elim False
      (fun st => st.emitted = [MessageEvent.error "Reply started with empty messages"] ∧
        st.txLog = st.emitted ∧ st.bc.log = st.emitted ∧
        lookupStatus st.reg "s1" = some TaskStatus.Error) := by
  cases hr : replyTask envC10 [] with
  | none => exact absurd hr (by decide)
  | some st =>
      simp only [Option.elim]
      have hc := c10_empty_messages envC10 [] st rfl rfl rfl hr
      exact ⟨hc.1, hc.2.1 rfl, hc.2.2.1 (by decide), hc.2.2.2.1⟩
